import Mathlib

/-!
Shallow embedding of the Lead Classification & Orchestration Engine
(tier classifier, readiness gate, task builder, orchestrator, batch runner)
of the VE-Notion repository, together with theorems checking the
natural-language specification against it.

Conventions used throughout the embedding:
* TypeScript optional fields become `Option` values.
* JavaScript truthiness on an optional string (`lead.firstName && ...`)
  is the predicate `present`: the value exists and is not the empty string.
* JavaScript `x || 0` on an optional number is `Option.getD x 0`.
* Clock values are minutes since an epoch; a calendar day is 1440 minutes.
  The JS `Date` mutations used by the source are: `setHours(getHours()+2)`
  (adds exactly 120 minutes, with day rollover), `setDate(getDate()+n)`
  (adds exactly `n * 1440` minutes), and `setHours(17,0,0,0)` (moves to
  minute `17*60` of the current calendar day).  The source reads the
  hidden global clock (`new Date()`); the embedding passes `now`
  explicitly, which is the same computation made deterministic.
* The orchestrator's external collaborators (list-id lookup, ClickUp
  create, Slack notify, team/channel lookups) are a record of functions
  `Env`; fallible calls return `Except String`, mirroring thrown
  exceptions whose `.message` the source catches.  The returned trace
  (`List ExtCall`) records which external mutating calls were made.
-/

namespace VE

/-- Lifecycle stage of a lead (`LeadStage` in `src/core/types/lead.ts`);
the string enum is modelled as an inductive type. `fresh` stands for the
source's `'new'` stage name. -/
inductive LeadStage where
  | fresh
  | contacted
  | engaged
  | actionReady
  | scheduled
  | converted
  | lost
deriving DecidableEq

/-- Lead record (`Lead` in `src/core/types/lead.ts`).  Only the fields
read by the embedded functions are carried; each optional TypeScript
field is an `Option`.  `tier` is a `Nat` because the TypeScript
annotation `LeadTier = 1|2|3|4` is erased at runtime and the source
explicitly handles out-of-range values in `default` branches. -/
structure Lead where
  id : String := ""
  ghlContactId : Option String := none
  firstName : Option String := none
  lastName : Option String := none
  phone : Option String := none
  email : Option String := none
  socialHandle : Option String := none
  tier : Nat := 1
  source : String := ""
  temperature : String := ""
  stage : LeadStage := LeadStage.fresh
  condition : Option String := none
  specificCondition : Option String := none
  isPregnant : Option Bool := none
  birthDate : Option String := none
  emailsOpened : Option Nat := none
  emailsClicked : Option Nat := none
  lastEngagement : Option String := none
  notes : Option String := none
  tags : Option (List String) := none
deriving DecidableEq

/-- JavaScript truthiness of an optional string field: the field is set
and not the empty string (in JS, `undefined` and `""` are both falsy). -/
def present : Option String → Bool
  | none => false
  | some s => !(s == "")

/-- JavaScript `a || b` on two optional strings: `b` when `a` is falsy. -/
def jsOrOpt (a b : Option String) : Option String :=
  if present a then a else b

/-- The string rendered by a JS template for `a || b` on the paths where
at least one of the two is truthy. -/
def jsOrStr (a b : Option String) : String :=
  (jsOrOpt a b).getD ""

/-- `calculateLeadTier` from `src/core/types/lead.ts`: the top-down
tier ladder (the source's early returns become an if-chain). -/
def calculateLeadTier (lead : Lead) : Nat :=
  if present lead.firstName && present lead.lastName && present lead.phone &&
     present lead.email && present lead.specificCondition &&
     (lead.isPregnant.isSome || present lead.birthDate) then 4
  else if present lead.firstName && present lead.lastName && present lead.phone &&
     present lead.email && present lead.condition then 3
  else if present lead.phone && present lead.email then 2
  else 1

/-- `isActionReady` from `src/core/types/lead.ts`: the readiness gate.
The source's `switch (lead.tier)` with a `default: return false` becomes
an if-chain on the tier. -/
def isActionReady (lead : Lead) : Bool :=
  if lead.tier = 4 then
    lead.stage == LeadStage.engaged || lead.stage == LeadStage.actionReady
  else if lead.tier = 3 then
    decide (2 ≤ lead.emailsOpened.getD 0) && decide (1 ≤ lead.emailsClicked.getD 0)
  else if lead.tier = 2 then
    decide (3 ≤ lead.emailsOpened.getD 0) || decide (1 ≤ lead.emailsClicked.getD 0)
  else if lead.tier = 1 then
    lead.stage == LeadStage.actionReady
  else
    false

/-- Task priority (`TaskPriority` in the task module). -/
inductive TaskPriority where
  | urgent
  | high
  | normal
  | low
deriving DecidableEq

/-- `calculateTaskPriority` from the task module: tier → priority table
with `default: 'normal'`. -/
def calculateTaskPriority (tier : Nat) : TaskPriority :=
  if tier = 4 then TaskPriority.urgent
  else if tier = 3 then TaskPriority.high
  else if tier = 2 then TaskPriority.normal
  else if tier = 1 then TaskPriority.low
  else TaskPriority.normal

/-- Calendar day index of a clock value (minutes since epoch). -/
def dayOf (t : Nat) : Nat := t / 1440

/-- Hour of day (0–23) of a clock value. -/
def hourOf (t : Nat) : Nat := t % 1440 / 60

/-- `calculateDueDate` from the task module.  The source mutates a
`Date` holding the current moment; `now` is that moment in minutes.
Tier 4: `setHours(getHours()+2)` is +120 minutes.  Tiers 3/2/1 move to
17:00 of the same / next / next-next calendar day.  The `switch` has no
`default` branch, so an out-of-range tier leaves the date untouched and
the function returns `now` itself. -/
def calculateDueDate (tier : Nat) (now : Nat) : Nat :=
  if tier = 4 then now + 120
  else if tier = 3 then
    if hourOf now < 15 then dayOf now * 1440 + 17 * 60
    else (dayOf now + 1) * 1440 + 17 * 60
  else if tier = 2 then (dayOf now + 1) * 1440 + 17 * 60
  else if tier = 1 then (dayOf now + 2) * 1440 + 17 * 60
  else now

/-- Display name selection inside `generateTaskName`:
``lead.firstName && lead.lastName ? `${first} ${last}` :
lead.email || lead.phone || lead.socialHandle || 'Unknown Lead'``. -/
def displayName (lead : Lead) : String :=
  if present lead.firstName && present lead.lastName then
    lead.firstName.getD "" ++ (" ") ++ lead.lastName.getD ""
  else if present lead.email then lead.email.getD ""
  else if present lead.phone then lead.phone.getD ""
  else if present lead.socialHandle then lead.socialHandle.getD ""
  else "Unknown Lead"

/-- `generateTaskName` from the task module. -/
def generateTaskName (lead : Lead) : String :=
  ("Follow up with ") ++ displayName lead ++ (" (Tier ") ++ toString lead.tier ++ (")")

/-- Rendering of `new Date(s).toLocaleDateString()` for the last-contact
line.  The locale-dependent date formatting is abstracted as the raw
timestamp string; no claim concerns the format of this line. -/
def localeDate (s : String) : String := s

/-- The ordered section list built by `generateTaskDescription` (each
`parts.push` guarded as in the source; the source then joins the parts
with a newline). -/
def descriptionParts (lead : Lead) : List String :=
  (if present lead.phone then [("📞 ") ++ lead.phone.getD ""] else []) ++
  (if present lead.email then [("📧 ") ++ lead.email.getD ""] else []) ++
  (if present lead.socialHandle then [("📱 ") ++ lead.socialHandle.getD ""] else []) ++
  (if present lead.condition || present lead.specificCondition then
    [("\n🏥 Condition: ") ++ jsOrStr lead.specificCondition lead.condition] else []) ++
  [("\n📍 Source: ") ++ lead.source] ++
  (if !(lead.emailsOpened.getD 0 == 0) || !(lead.emailsClicked.getD 0 == 0) then
    [("\n📊 Engagement: ") ++ toString (lead.emailsOpened.getD 0) ++ (" opens, ") ++
      toString (lead.emailsClicked.getD 0) ++ (" clicks")] else []) ++
  (if present lead.lastEngagement then
    [("\n🕒 Last contact: ") ++ localeDate (lead.lastEngagement.getD "")] else []) ++
  (if present lead.notes then [("\n📝 Notes: ") ++ lead.notes.getD ""] else []) ++
  (if present lead.ghlContactId then
    [("\n🔗 [View in GHL](https://app.gohighlevel.com/contacts/") ++
      lead.ghlContactId.getD "" ++ (")")] else [])

/-- `generateTaskDescription` from the task module. -/
def generateTaskDescription (lead : Lead) : String :=
  String.intercalate ("\n") (descriptionParts lead)

/-- The `customFields` object assembled by `buildTaskFromLead`. -/
structure CustomFields where
  leadSource : String
  leadTier : String
  leadTemperature : String
  phone : Option String
  email : Option String
  condition : Option String
  lastContact : Option String
deriving DecidableEq

/-- `ClickUpTask` record produced by `buildTaskFromLead` (the interface
declares `dueDate?: number`, hence `Option Nat` here). -/
structure ClickUpTask where
  listId : String
  name : String
  description : String
  priority : TaskPriority
  status : String
  assignees : List String
  dueDate : Option Nat
  customFields : CustomFields
  tags : List String
deriving DecidableEq

/-- `buildTaskFromLead` from the task module; `now` is the current
moment read by `calculateDueDate`. -/
def buildTaskFromLead (lead : Lead) (listId : String) (assignees : List String)
    (now : Nat) : ClickUpTask :=
  { listId := listId
    name := generateTaskName lead
    description := generateTaskDescription lead
    priority := calculateTaskPriority lead.tier
    status := "open"
    assignees := assignees
    dueDate := some (calculateDueDate lead.tier now)
    customFields :=
      { leadSource := lead.source
        leadTier := toString lead.tier
        leadTemperature := lead.temperature
        phone := lead.phone
        email := lead.email
        condition := jsOrOpt lead.condition lead.specificCondition
        lastContact := lead.lastEngagement }
    tags := lead.tags.getD [] }

/-- `LeadToTaskResult` from `src/workflows/lead-to-task.ts`: the
structured outcome of one orchestration run (`taskId`, `taskUrl` and
`error` are optional and default to absent, as in the object literals
the source returns). -/
structure LeadToTaskResult where
  success : Bool
  taskCreated : Bool
  taskId : Option String := none
  taskUrl : Option String := none
  slackNotified : Bool
  error : Option String := none
deriving DecidableEq

/-- The `{id, url, name}` fields of the task object the external
ClickUp client's `createTask` returns (only `id` and `url` are read
into the outcome). -/
structure CreatedTask where
  id : String
  url : String
deriving DecidableEq

/-- An external mutating call made by the orchestrator: the task-store
create or the messaging-client notify.  The returned trace of
`processLeadToTask` lists these in call order. -/
inductive ExtCall where
  | create (task : ClickUpTask)
  | notify (leadId : String) (taskId : String)
deriving DecidableEq

/-- The orchestrator's external collaborators, as imported by
`src/workflows/lead-to-task.ts`: `getListIdForTier` (returns the empty
string when no list is configured for a tier), `getFrontDeskClickUpIds`,
the ClickUp client's `createTask`, `getFrontDeskChannelId` (empty when
unconfigured), `getFrontDeskSlackIds`, and the Slack client's
`notifyTaskCreated`.  Fallible calls return `Except String`, the error
being the thrown exception's `.message`. -/
structure Env where
  listIdForTier : Nat → String
  frontDeskClickUpIds : List String
  createTask : ClickUpTask → Except String CreatedTask
  frontDeskChannelId : String
  frontDeskSlackIds : List String
  notifyTaskCreated : Lead → CreatedTask → List String → String → Except String Unit

/-- `processLeadToTask` from `src/workflows/lead-to-task.ts`, paired
with the trace of external mutating calls it made.  The source wraps
the whole body in `try/catch`; the `catch` converts any thrown error
into `{success:false, taskCreated:false, slackNotified:false, error}`.
Two throws exist: the explicit
`throw new Error('No ClickUp list configured for tier N')` and any
rejection from `createTask` / `notifyTaskCreated`; each is modelled at
its throw site as the caught outcome.  Console logging has no
value-level effect and is omitted. -/
def processLeadToTask (env : Env) (now : Nat) (lead : Lead) :
    LeadToTaskResult × List ExtCall :=
  if !isActionReady lead then
    ({ success := true, taskCreated := false, slackNotified := false
       error := some ("Lead not yet at action stage") }, [])
  else
    let listId := env.listIdForTier lead.tier
    if listId = "" then
      ({ success := false, taskCreated := false, slackNotified := false
         error := some (("No ClickUp list configured for tier ") ++ toString lead.tier) }, [])
    else
      let taskData := buildTaskFromLead lead listId env.frontDeskClickUpIds now
      match env.createTask taskData with
      | Except.error msg =>
          ({ success := false, taskCreated := false, slackNotified := false
             error := some msg }, [ExtCall.create taskData])
      | Except.ok created =>
          if env.frontDeskChannelId = "" then
            ({ success := true, taskCreated := true, taskId := some created.id
               taskUrl := some created.url, slackNotified := false },
             [ExtCall.create taskData])
          else
            match env.notifyTaskCreated lead created env.frontDeskSlackIds
                env.frontDeskChannelId with
            | Except.error msg =>
                ({ success := false, taskCreated := false, slackNotified := false
                   error := some msg },
                 [ExtCall.create taskData, ExtCall.notify lead.id created.id])
            | Except.ok _ =>
                ({ success := true, taskCreated := true, taskId := some created.id
                   taskUrl := some created.url, slackNotified := true },
                 [ExtCall.create taskData, ExtCall.notify lead.id created.id])

/-- `processMultipleLeads` from `src/workflows/lead-to-task.ts`: the
sequential batch loop, collecting each lead's outcome in order.  The
fixed one-second `delay` between iterations has no value-level effect
and is omitted. -/
def processMultipleLeads (env : Env) (now : Nat) : List Lead → List LeadToTaskResult
  | [] => []
  | lead :: rest =>
      (processLeadToTask env now lead).1 :: processMultipleLeads env now rest

/-- Spec-side tier-4 predicate, written from the spec's words: first
name, last name, phone, email, detailed-condition text present, and
(pregnancy flag explicitly set or birth date present). -/
def tier4Spec (lead : Lead) : Bool :=
  present lead.firstName && present lead.lastName && present lead.phone &&
  present lead.email && present lead.specificCondition &&
  (lead.isPregnant.isSome || present lead.birthDate)

/-- Spec-side tier-3 predicate: first name, last name, phone, email and
general condition present. -/
def tier3Spec (lead : Lead) : Bool :=
  present lead.firstName && present lead.lastName && present lead.phone &&
  present lead.email && present lead.condition

/-- Spec-side tier-2 predicate: phone and email present. -/
def tier2Spec (lead : Lead) : Bool :=
  present lead.phone && present lead.email

/-- Spec-side readiness rule, written from the spec's words as a plain
disjunction of per-tier cases; a tier matching no case (unknown or
out-of-range) is not ready. -/
def readySpecProp (lead : Lead) : Prop :=
  (lead.tier = 4 ∧ (lead.stage = LeadStage.engaged ∨ lead.stage = LeadStage.actionReady)) ∨
  (lead.tier = 3 ∧ 2 ≤ lead.emailsOpened.getD 0 ∧ 1 ≤ lead.emailsClicked.getD 0) ∨
  (lead.tier = 2 ∧ (3 ≤ lead.emailsOpened.getD 0 ∨ 1 ≤ lead.emailsClicked.getD 0)) ∨
  (lead.tier = 1 ∧ lead.stage = LeadStage.actionReady)

/-- Spec-side due-date helper: same calendar day as `now`, at 17:00. -/
def sameDayAt1700 (now : Nat) : Nat := dayOf now * 1440 + 17 * 60

/-- Spec-side due-date helper: the calendar day after `now`, at 17:00. -/
def nextDayAt1700 (now : Nat) : Nat := (dayOf now + 1) * 1440 + 17 * 60

/-- Spec-side due-date helper: two calendar days after `now`, at 17:00. -/
def twoDaysLaterAt1700 (now : Nat) : Nat := (dayOf now + 2) * 1440 + 17 * 60

/-- Fixture: a lead carrying a tier value outside 1–4 (the TypeScript
tier annotation is erased at runtime, so such a value can reach the
task builder). -/
def leadTier0 : Lead :=
  { id := ("lead-0"), tier := 0, source := ("referral"), temperature := ("cold") }

/-- Fixture: a tier-4 lead at the action-ready stage (passes the gate). -/
def leadT4Ready : Lead :=
  { id := ("lead-4"), tier := 4, stage := LeadStage.actionReady
    firstName := some ("Sarah"), lastName := some ("Johnson")
    phone := some ("+15551234567"), email := some ("sarah@example.com")
    condition := some ("Severe back pain")
    source := ("website-form"), temperature := ("hot") }

/-- Fixture: a tier-2 lead with one open and no clicks (fails the gate). -/
def leadT2NotReady : Lead :=
  { id := ("lead-2a"), tier := 2, stage := LeadStage.engaged
    emailsOpened := some 1, emailsClicked := some 0
    source := ("facebook-ad"), temperature := ("warm") }

/-- Fixture: a tier-2 lead with three opens (passes the gate). -/
def leadT2Ready : Lead :=
  { id := ("lead-2b"), tier := 2, stage := LeadStage.engaged
    emailsOpened := some 3, emailsClicked := some 0
    source := ("website-form"), temperature := ("warm") }

/-- Fixture: a lead with both a general and a detailed condition set;
it also satisfies both the tier-4 and the tier-3 spec predicates. -/
def leadFullIntake : Lead :=
  { id := ("lead-f"), tier := 4, stage := LeadStage.engaged
    firstName := some ("Ann"), lastName := some ("Lee")
    phone := some ("5550001111"), email := some ("ann@example.com")
    condition := some ("back pain"), specificCondition := some ("disc herniation")
    isPregnant := some false
    source := ("referral"), temperature := ("hot") }

/-- Fixture environment: nothing configured and every external call
fails (the not-ready and missing-list paths never reach those calls). -/
def envTrivial : Env :=
  { listIdForTier := fun _ => ""
    frontDeskClickUpIds := []
    createTask := fun _ => Except.error ("no clickup")
    frontDeskChannelId := ""
    frontDeskSlackIds := []
    notifyTaskCreated := fun _ _ _ _ => Except.error ("no slack") }

/-- Fixture environment: list and channel configured, the task-store
create succeeds, and the notification call fails. -/
def envNotifyFail : Env :=
  { listIdForTier := fun _ => ("list-1")
    frontDeskClickUpIds := []
    createTask := fun _ => Except.ok { id := ("t1"), url := ("u1") }
    frontDeskChannelId := ("chan-1")
    frontDeskSlackIds := []
    notifyTaskCreated := fun _ _ _ _ => Except.error ("slack down") }

/-- C3: the tier classifier returns exactly one tier by a top-down
ladder with first match winning — tier 4 on the full-intake predicate,
else tier 3 on the name-contact-condition predicate, else tier 2 on
phone-and-email, else tier 1; in particular a lead satisfying both the
tier-4 and tier-3 predicates is classified 4, never 3. -/
theorem c3_tier_ladder (lead : Lead) :
    calculateLeadTier lead =
      (if tier4Spec lead then 4 else if tier3Spec lead then 3
       else if tier2Spec lead then 2 else 1) ∧
    (tier4Spec lead = true → tier3Spec lead = true → calculateLeadTier lead = 4) := by
  refine ⟨rfl, fun h _ => ?_⟩
  have e : calculateLeadTier lead =
      (if tier4Spec lead then 4 else if tier3Spec lead then 3
       else if tier2Spec lead then 2 else 1) := rfl
  rw [e]
  simp [h]

/-- Witness for C3 at a concrete lead satisfying both the tier-4 and
the tier-3 predicates: the classifier yields 4. -/
theorem c3_witness :
    tier4Spec leadFullIntake = true ∧ tier3Spec leadFullIntake = true ∧
    calculateLeadTier leadFullIntake = 4 :=
  ⟨by decide, by decide, (c3_tier_ladder leadFullIntake).2 (by decide) (by decide)⟩

/-- C4: the readiness gate returns true exactly per the spec's per-tier
rule — tier 4 on stage engaged or action-ready; tier 3 on opened ≥ 2
and clicked ≥ 1; tier 2 on opened ≥ 3 or clicked ≥ 1; tier 1 only on
stage action-ready; any other tier is never ready (fail closed). -/
theorem c4_readiness_gate (lead : Lead) :
    isActionReady lead = true ↔ readySpecProp lead := by
  unfold isActionReady readySpecProp
  by_cases h4 : lead.tier = 4
  · simp [h4]
  · by_cases h3 : lead.tier = 3
    · simp [h3, h4]
    · by_cases h2 : lead.tier = 2
      · simp [h2, h4, h3]
      · by_cases h1 : lead.tier = 1
        · simp [h1, h4, h3, h2]
        · simp [h4, h3, h2, h1]

/-- C5: the tier-to-priority mapping is exactly 4 → urgent, 3 → high,
2 → normal, 1 → low, and every other tier value maps to normal. -/
theorem c5_priority_table :
    calculateTaskPriority 4 = TaskPriority.urgent ∧
    calculateTaskPriority 3 = TaskPriority.high ∧
    calculateTaskPriority 2 = TaskPriority.normal ∧
    calculateTaskPriority 1 = TaskPriority.low ∧
    ∀ t : Nat, t ≠ 4 → t ≠ 3 → t ≠ 2 → t ≠ 1 →
      calculateTaskPriority t = TaskPriority.normal := by
  refine ⟨rfl, rfl, rfl, rfl, fun t h4 h3 h2 h1 => ?_⟩
  simp [calculateTaskPriority, h4, h3, h2, h1]

/-- Witness for C5 at the out-of-range tier 0: priority is normal. -/
theorem c5_witness : calculateTaskPriority 0 = TaskPriority.normal :=
  c5_priority_table.2.2.2.2 0 (by decide) (by decide) (by decide) (by decide)

/-- C6: for tiers 1–4 the due-date computation yields tier 4 → now plus
2 hours (120 minutes), tier 3 → same calendar day at 17:00 when the
hour is below 15 and next calendar day at 17:00 otherwise, tier 2 →
next calendar day at 17:00, tier 1 → two calendar days later at 17:00;
in particular a tier-3 computation at 14:00 is due the same day at
17:00 and at 16:00 the next day at 17:00. -/
theorem c6_due_date_table : ∀ now : Nat,
    calculateDueDate 4 now = now + 120 ∧
    calculateDueDate 3 now =
      (if hourOf now < 15 then sameDayAt1700 now else nextDayAt1700 now) ∧
    calculateDueDate 2 now = nextDayAt1700 now ∧
    calculateDueDate 1 now = twoDaysLaterAt1700 now ∧
    (∀ d : Nat,
      calculateDueDate 3 (d * 1440 + 14 * 60) = sameDayAt1700 (d * 1440 + 14 * 60) ∧
      calculateDueDate 3 (d * 1440 + 16 * 60) = nextDayAt1700 (d * 1440 + 16 * 60)) := by
  intro now
  refine ⟨rfl, rfl, rfl, rfl, fun d => ⟨?_, ?_⟩⟩
  · have h : hourOf (d * 1440 + 14 * 60) = 14 := by unfold hourOf; omega
    simp [calculateDueDate, h, sameDayAt1700]
  · have h : hourOf (d * 1440 + 16 * 60) = 16 := by unfold hourOf; omega
    simp [calculateDueDate, h, nextDayAt1700]

/-- Counterexample to C2: for the out-of-range tier 0 the task builder
does NOT leave the due-date field absent — the field is set, to the
current moment itself (the switch has no default branch, so the date is
returned unmodified, and `buildTaskFromLead` always assigns it). -/
theorem c2_counterexample :
    ¬ (buildTaskFromLead leadTier0 ("list-x") [] 500).dueDate = none ∧
    (buildTaskFromLead leadTier0 ("list-x") [] 500).dueDate = some 500 := by
  decide

/-- C2 as amended: for every tier value not in 1–4 the produced task's
due-date field is present and equals the current moment unchanged (no
SLA offset); no branch of the due-date computation leaves the field
absent. -/
theorem c2_amended_due_date_always_set
    (lead : Lead) (listId : String) (assignees : List String) (now : Nat)
    (h4 : lead.tier ≠ 4) (h3 : lead.tier ≠ 3) (h2 : lead.tier ≠ 2) (h1 : lead.tier ≠ 1) :
    (buildTaskFromLead lead listId assignees now).dueDate = some now := by
  simp [buildTaskFromLead, calculateDueDate, h4, h3, h2, h1]

/-- Witness for the amended C2 at tier 0: the due date equals `now`. -/
theorem c2_witness :
    (buildTaskFromLead leadTier0 ("list-x") [] 500).dueDate = some 500 :=
  c2_amended_due_date_always_set leadTier0 ("list-x") [] 500
    (by decide) (by decide) (by decide) (by decide)

/-- C1: for a lead that passes the gate, when the task-store create
succeeds but the subsequent notification call fails, the orchestrator
returns success false, taskCreated false, slackNotified false with the
failure message — the whole operation is reported as failed even though
the create call was in fact made (it appears in the call trace). -/
theorem c1_notify_failure_fails_whole_operation
    (env : Env) (now : Nat) (lead : Lead) (created : CreatedTask) (msg : String)
    (hready : isActionReady lead = true)
    (hlist : env.listIdForTier lead.tier ≠ "")
    (hcreate : env.createTask (buildTaskFromLead lead (env.listIdForTier lead.tier)
        env.frontDeskClickUpIds now) = Except.ok created)
    (hchan : env.frontDeskChannelId ≠ "")
    (hnotify : env.notifyTaskCreated lead created env.frontDeskSlackIds
        env.frontDeskChannelId = Except.error msg) :
    (processLeadToTask env now lead).1 =
      { success := false, taskCreated := false, slackNotified := false,
        error := some msg } ∧
    ExtCall.create (buildTaskFromLead lead (env.listIdForTier lead.tier)
        env.frontDeskClickUpIds now) ∈ (processLeadToTask env now lead).2 := by
  unfold processLeadToTask
  simp [hready, hlist, hcreate, hchan, hnotify]

/-- Witness for C1: a concrete ready lead, a create that succeeds and a
notify that fails with message "slack down". -/
theorem c1_witness :
    (processLeadToTask envNotifyFail 0 leadT4Ready).1 =
      { success := false, taskCreated := false, slackNotified := false,
        error := some ("slack down") } ∧
    ExtCall.create (buildTaskFromLead leadT4Ready
        (envNotifyFail.listIdForTier leadT4Ready.tier)
        envNotifyFail.frontDeskClickUpIds 0) ∈
      (processLeadToTask envNotifyFail 0 leadT4Ready).2 :=
  c1_notify_failure_fails_whole_operation envNotifyFail 0 leadT4Ready
    { id := ("t1"), url := ("u1") } ("slack down")
    (by decide) (by decide) rfl (by decide) rfl

/-- Counterexample to C7: the not-ready outcome's error message is
"Lead not yet at action stage" (capital L), not the claimed
"lead not yet at action stage". -/
theorem c7_counterexample :
    isActionReady leadT2NotReady = false ∧
    (processLeadToTask envTrivial 0 leadT2NotReady).1.error ≠
      some ("lead not yet at action stage") ∧
    (processLeadToTask envTrivial 0 leadT2NotReady).1.error =
      some ("Lead not yet at action stage") := by
  decide

/-- C7 as amended: for every lead failing the gate the orchestrator
returns success true, taskCreated false, slackNotified false and the
error message "Lead not yet at action stage", and makes no external
calls — a successful no-op. -/
theorem c7_amended_not_ready_noop
    (env : Env) (now : Nat) (lead : Lead) (h : isActionReady lead = false) :
    (processLeadToTask env now lead).1 =
      { success := true, taskCreated := false, slackNotified := false,
        error := some ("Lead not yet at action stage") } ∧
    (processLeadToTask env now lead).2 = [] := by
  unfold processLeadToTask
  simp [h]

/-- Witness for the amended C7 at a concrete not-ready tier-2 lead. -/
theorem c7_witness :
    (processLeadToTask envTrivial 0 leadT2NotReady).1 =
      { success := true, taskCreated := false, slackNotified := false,
        error := some ("Lead not yet at action stage") } ∧
    (processLeadToTask envTrivial 0 leadT2NotReady).2 = [] :=
  c7_amended_not_ready_noop envTrivial 0 leadT2NotReady (by decide)

/-- Counterexample to C8: with no list configured for the ready lead's
tier, the outcome's error message is "No ClickUp list configured for
tier 2", not the claimed "no destination configured for tier 2"
(success and taskCreated are false and no create call is made, as the
claim says). -/
theorem c8_counterexample :
    isActionReady leadT2Ready = true ∧
    envTrivial.listIdForTier leadT2Ready.tier = "" ∧
    (processLeadToTask envTrivial 0 leadT2Ready).1.error =
      some ("No ClickUp list configured for tier 2") ∧
    (processLeadToTask envTrivial 0 leadT2Ready).1.error ≠
      some ("no destination configured for tier 2") ∧
    (processLeadToTask envTrivial 0 leadT2Ready).1.success = false ∧
    (processLeadToTask envTrivial 0 leadT2Ready).1.taskCreated = false ∧
    (processLeadToTask envTrivial 0 leadT2Ready).2 = [] := by
  decide

/-- C8 as amended: for every ready lead whose tier resolves to no
destination list (the resolver returns the empty string), the
orchestrator returns success false, taskCreated false and the error
message "No ClickUp list configured for tier N", and the task-store
create operation is never invoked. -/
theorem c8_amended_no_list_failure
    (env : Env) (now : Nat) (lead : Lead)
    (hready : isActionReady lead = true)
    (hlist : env.listIdForTier lead.tier = "") :
    (processLeadToTask env now lead).1 =
      { success := false, taskCreated := false, slackNotified := false,
        error := some (("No ClickUp list configured for tier ") ++ toString lead.tier) } ∧
    (processLeadToTask env now lead).2 = [] := by
  unfold processLeadToTask
  simp [hready, hlist]

/-- Witness for the amended C8 at a concrete ready tier-2 lead and an
environment with no configured lists. -/
theorem c8_witness :
    (processLeadToTask envTrivial 0 leadT2Ready).1 =
      { success := false, taskCreated := false, slackNotified := false,
        error := some (("No ClickUp list configured for tier ") ++
          toString leadT2Ready.tier) } ∧
    (processLeadToTask envTrivial 0 leadT2Ready).2 = [] :=
  c8_amended_no_list_failure envTrivial 0 leadT2Ready (by decide) rfl

/-- C9: the batch runner returns one outcome per lead, in input order,
in a same-length list; the i-th outcome is exactly the orchestrator's
outcome for the i-th lead, independent of every other lead's outcome,
so a failing lead never halts the processing of the later ones. -/
theorem c9_batch_one_outcome_per_lead (env : Env) (now : Nat) (leads : List Lead) :
    (processMultipleLeads env now leads).length = leads.length ∧
    ∀ i : Nat, (processMultipleLeads env now leads).get? i =
      (leads.get? i).map fun lead => (processLeadToTask env now lead).1 := by
  induction leads with
  | nil => exact ⟨rfl, fun i => by cases i <;> rfl⟩
  | cons head tail ih =>
      refine ⟨by simpa [processMultipleLeads] using ih.1, fun i => ?_⟩
      cases i with
      | zero => rfl
      | succ j => simpa [processMultipleLeads] using ih.2 j

/-- C10: when both the general and the detailed condition are set, the
task's custom field "condition" carries the general condition, while
the description's condition line carries the detailed one — the two
spots prefer opposite fields. -/
theorem c10_condition_precedence
    (lead : Lead) (listId : String) (assignees : List String) (now : Nat)
    (hc : present lead.condition = true) (hs : present lead.specificCondition = true) :
    (buildTaskFromLead lead listId assignees now).customFields.condition = lead.condition ∧
    (("\n🏥 Condition: ") ++ lead.specificCondition.getD "") ∈ descriptionParts lead := by
  constructor
  · simp [buildTaskFromLead, jsOrOpt, hc]
  · simp [descriptionParts, jsOrStr, jsOrOpt, hc, hs, List.mem_append]

/-- Witness for C10 at a lead with general condition "back pain" and
detailed condition "disc herniation". -/
theorem c10_witness :
    present leadFullIntake.condition = true ∧
    present leadFullIntake.specificCondition = true ∧
    ((buildTaskFromLead leadFullIntake ("list-3") [] 0).customFields.condition =
        leadFullIntake.condition ∧
      (("\n🏥 Condition: ") ++ leadFullIntake.specificCondition.getD "") ∈
        descriptionParts leadFullIntake) :=
  ⟨by decide, by decide,
    c10_condition_precedence leadFullIntake ("list-3") [] 0 (by decide) (by decide)⟩

end VE
